import Mathlib

/-!
Shallow embedding of `src/app.py` (SIG-SEL bid-evaluation dashboard).

The program reads procurement cases (`expedientes_contratacion`) and bids
(`ofertas_recibidas`) from an external store, triggers a remote scoring
computation over HTTP, and renders a ranked table of bids with a highlighted
winner.  Numeric columns carry exact rationals in the model; Python's
round-half-to-even rounding at two decimals is modelled exactly.
-/

namespace SigSel

/-- A row of the `ofertas_recibidas` table, as returned by
`select("*").eq("expediente_id", ...)` in `fetch_ofertas`. -/
structure Oferta where
  id : ℕ
  expediente_id : ℕ
  razon_social : String
  monto_ofertado : ℚ
  puntaje_precio : ℚ
  puntaje_tecnico : ℚ
  puntaje_total : ℚ
deriving DecidableEq, Repr

/-- A full row of the `expedientes_contratacion` table in the store
(the table also carries an estimated value not selected by the app). -/
structure ExpedienteRow where
  id : ℕ
  codigo_proceso : String
  objeto_contrato : String
  valor_estimado : ℚ
  estado_fase : String
deriving DecidableEq, Repr

/-- The projection produced by
`select("id, codigo_proceso, objeto_contrato, estado_fase")` in
`fetch_expedientes` (app.py line 45). -/
structure Expediente where
  id : ℕ
  codigo_proceso : String
  objeto_contrato : String
  estado_fase : String
deriving DecidableEq, Repr

/-- Column projection applied by the `select` clause of `fetch_expedientes`. -/
def projExpediente (r : ExpedienteRow) : Expediente :=
  ⟨r.id, r.codigo_proceso, r.objeto_contrato, r.estado_fase⟩

/-- Semantics of the query issued by `fetch_expedientes` (app.py line 45):
`table("expedientes_contratacion").select("id, codigo_proceso, objeto_contrato,
estado_fase")` — a column projection over every row, with no row filter. -/
def expedientesQuery (db : List ExpedienteRow) : List Expediente :=
  db.map projExpediente

/-- Semantics of the query issued by `fetch_ofertas` (app.py line 55):
`table("ofertas_recibidas").select("*").eq("expediente_id", expediente_id)` —
all columns of the rows whose `expediente_id` matches, in store order
(the query has no order clause). -/
def ofertasQuery (db : List Oferta) (eid : ℕ) : List Oferta :=
  db.filter (fun o => o.expediente_id = eid)

/-- `fetch_expedientes` (app.py lines 40-49): runs the query inside
`try/except`; on an exception it shows
`st.error(f"Error al cargar expedientes: {e}")` and returns an empty frame.
The argument is the outcome of `execute()` (the store's rows, or a raised
exception's message); the result pairs the returned rows with the error
message shown, if any. -/
def fetch_expedientes (outcome : Except String (List ExpedienteRow)) :
    List Expediente × Option String :=
  match outcome with
  | Except.ok db => (expedientesQuery db, none)
  | Except.error e => ([], some ("Error al cargar expedientes: " ++ e))

/-- `fetch_ofertas` (app.py lines 51-59): runs the query inside `try/except`;
on an exception it shows `st.error(f"Error al cargar ofertas: {e}")` and
returns an empty frame. -/
def fetch_ofertas (eid : ℕ) (outcome : Except String (List Oferta)) :
    List Oferta × Option String :=
  match outcome with
  | Except.ok db => (ofertasQuery db eid, none)
  | Except.error e => ([], some ("Error al cargar ofertas: " ++ e))

/-- Round-half-to-even to the nearest integer, the rounding used by
`pandas.Series.round` (NumPy) and Python's `format` on the model's exact
rationals. -/
def rhe (q : ℚ) : ℤ :=
  if q - q.floor = 1/2 then
    (if q.floor % 2 = 0 then q.floor else q.floor + 1)
  else (q + 1/2).floor

/-- `.round(2)` applied to the score columns (app.py lines 133-135). -/
def round2 (q : ℚ) : ℚ := (rhe (100 * q) : ℚ) / 100

/-- Two-digit zero padding for the cents part of a currency string. -/
def pad2 (n : ℕ) : String := if n < 10 then "0" ++ toString n else toString n

/-- Group a digit list (least-significant first) into blocks of three. -/
def chunk3 : List Char → List (List Char)
  | [] => []
  | a :: b :: c :: rest => [a, b, c] :: chunk3 rest
  | l => [l]

/-- Insert thousands separators into a decimal digit string. -/
def insertCommas (digits : String) : String :=
  String.intercalate "," (((chunk3 digits.data.reverse).map
    (fun g => String.mk g.reverse)).reverse)

/-- The currency format `f"S/ {x:,.2f}"` applied to `monto_ofertado`
(app.py line 132). -/
def formatMoneda (q : ℚ) : String :=
  let c : ℤ := rhe (100 * q)
  let sign := if c < 0 then "-" else ""
  "S/ " ++ sign ++ insertCommas (toString (c.natAbs / 100)) ++ "." ++
    pad2 (c.natAbs % 100)

/-- The `columnas_ranking` projection
`['razon_social', 'monto_ofertado', 'puntaje_precio', 'puntaje_tecnico',
'puntaje_total']` (app.py lines 123-124). -/
structure OfertaProj where
  razon_social : String
  monto_ofertado : ℚ
  puntaje_precio : ℚ
  puntaje_tecnico : ℚ
  puntaje_total : ℚ
deriving DecidableEq, Repr

/-- `ofertas_df[columnas_ranking]` applied to one row. -/
def proyectarColumnas (o : Oferta) : OfertaProj :=
  ⟨o.razon_social, o.monto_ofertado, o.puntaje_precio, o.puntaje_tecnico,
    o.puntaje_total⟩

/-- The comparison used by
`sort_values(by='puntaje_total', ascending=False)`: `a` precedes `b` when
`b`'s total score does not exceed `a`'s. -/
def rdesc (a b : OfertaProj) : Prop := b.puntaje_total ≤ a.puntaje_total

instance : DecidableRel rdesc :=
  fun a b => inferInstanceAs (Decidable (b.puntaje_total ≤ a.puntaje_total))

instance : IsTotal OfertaProj rdesc :=
  ⟨fun a b => le_total b.puntaje_total a.puntaje_total⟩

instance : IsTrans OfertaProj rdesc :=
  ⟨fun _ _ _ hab hbc => le_trans hbc hab⟩

/-- `display_df.sort_values(by='puntaje_total', ascending=False)`
(app.py line 127), modelled as a sort under `rdesc`; ties keep input
order (the pandas tie order is unspecified, and no claim depends on it). -/
def sortedOfertas (l : List OfertaProj) : List OfertaProj :=
  List.insertionSort rdesc l

/-- `display_df['ranking'] = range(1, len(display_df) + 1)` (app.py line 128):
the sorted rows paired with ranks 1, 2, ..., n by sorted position. -/
def rankedRows (l : List OfertaProj) : List (ℕ × OfertaProj) :=
  (List.range' 1 (sortedOfertas l).length).zip (sortedOfertas l)

/-- A row of the final `display_df` after the formatting block
(app.py lines 129-135): rank first, currency as text, scores rounded. -/
structure DisplayRow where
  ranking : ℕ
  razon_social : String
  monto_ofertado : String
  puntaje_precio : ℚ
  puntaje_tecnico : ℚ
  puntaje_total : ℚ
deriving DecidableEq, Repr

instance : Inhabited DisplayRow := ⟨⟨0, "", "", 0, 0, 0⟩⟩

/-- Formatting of one ranked row (app.py lines 129-135). -/
def mkDisplayRow (p : ℕ × OfertaProj) : DisplayRow :=
  { ranking := p.1
    razon_social := p.2.razon_social
    monto_ofertado := formatMoneda p.2.monto_ofertado
    puntaje_precio := round2 p.2.puntaje_precio
    puntaje_tecnico := round2 p.2.puntaje_tecnico
    puntaje_total := round2 p.2.puntaje_total }

/-- The full `display_df` pipeline (app.py lines 123-135): project the
ranking columns, sort by total score descending, attach ranks, format. -/
def display_df (ofertas : List Oferta) : List DisplayRow :=
  (rankedRows (ofertas.map proyectarColumnas)).map mkDisplayRow

/-- Outcome of the main render pass for the selected case
(app.py lines 118-120 and 202-208): either the empty-state warning with
`st.stop()`, or the rendered table together with the winner row
(`ganador = display_df.iloc[0]`) surfaced in `st.metric` via its
`razon_social` and `puntaje_total` fields. -/
inductive RenderOutcome where
  | noOfertas (warning : String)
  | rendered (table : List DisplayRow) (ganador : DisplayRow)
deriving DecidableEq, Repr

/-- The render pass over the bids of the selected case: the
`if ofertas_df.empty` guard (line 118) stops with a warning before the winner
summary; otherwise the table is shown and `display_df.iloc[0]` becomes the
winner metric. -/
def renderExpediente (ofertas : List Oferta) : RenderOutcome :=
  if ofertas.isEmpty then
    RenderOutcome.noOfertas "No se han cargado ofertas para este expediente."
  else
    RenderOutcome.rendered (display_df ofertas) (display_df ofertas).headI

/-- A JSON value, for the payloads exchanged with the edge function. -/
inductive JsonVal where
  | null
  | bool (b : Bool)
  | num (q : ℚ)
  | str (s : String)
  | arr (items : List JsonVal)
  | obj (fields : List (String × JsonVal))

/-- Outcome of `requests.post(...)` followed by `response.json()` inside the
`try` block of `call_edge_function`: either a completed response whose body
parsed as JSON, or a raised exception (network failure or malformed body)
carrying `str(e)`. -/
inductive PostResult where
  | ok (status : ℕ) (body : JsonVal)
  | exn (msg : String)

/-- `call_edge_function` (app.py lines 61-78): success exactly on HTTP 200
with the parsed body; any other status yields failure with the parsed body;
a raised exception yields failure with `{"error": str(e)}`. -/
def call_edge_function (r : PostResult) : Bool × JsonVal :=
  match r with
  | PostResult.ok status body =>
      if status = 200 then (true, body) else (false, body)
  | PostResult.exn e => (false, JsonVal.obj [("error", JsonVal.str e)])

/-- Observable effects of one click of the trigger button
(app.py lines 141-154). -/
structure UiEffects where
  successShown : Bool
  cacheCleared : Bool
  rerun : Bool
  errorShown : Option JsonVal

/-- The trigger-button handler (app.py lines 141-154): on success it shows
the success banner, clears the cached read data (`st.cache_data.clear()`)
and reruns the page so data is re-fetched before re-rendering; on failure it
shows the error panel with the raw JSON payload (`st.json(result)`) and
leaves the cache untouched. -/
def handle_trigger (r : PostResult) : UiEffects :=
  match call_edge_function r with
  | (success, result) =>
      if success then
        { successShown := true, cacheCleared := true, rerun := true
          errorShown := none }
      else
        { successShown := false, cacheCleared := false, rerun := false
          errorShown := some result }

/-- Sample bid: lowest total score among the three samples. -/
def oferta1 : Oferta := ⟨1, 7, "Constructora Andina SAC", 125000, 60, 28, 88⟩

/-- Sample bid: tied top total score, first in input order. -/
def oferta2 : Oferta := ⟨2, 7, "Ingenieria del Sur EIRL", 118000, 65, 30, 95⟩

/-- Sample bid: tied top total score, second in input order. -/
def oferta3 : Oferta := ⟨3, 7, "Servicios Lima SA", 130000, 65, 30, 95⟩

/-- Sample bid whose scores are all 87.6666, the spec's first rounding case. -/
def oferta_r1 : Oferta :=
  ⟨4, 9, "Redondeo Arriba SA", 1000, 876666/10000, 876666/10000, 876666/10000⟩

/-- Sample bid whose scores are all 87.664, the spec's second rounding case. -/
def oferta_r2 : Oferta :=
  ⟨5, 9, "Redondeo Abajo SA", 1000, 87664/1000, 87664/1000, 87664/1000⟩

/-- Sample bid with the smaller total score, stored first. -/
def ofertaBaja : Oferta := ⟨10, 1, "Oferta Baja SAC", 100, 10, 10, 10⟩

/-- Sample bid with the larger total score, stored second. -/
def ofertaAlta : Oferta := ⟨11, 1, "Oferta Alta SAC", 100, 20, 20, 20⟩

/-- Sample case in the call-for-bids phase. -/
def expedienteConv : ExpedienteRow :=
  ⟨1, "LP-001-2025", "Obra vial", 500000, "CONVOCATORIA"⟩

/-- Sample case already awarded. -/
def expedienteAdj : ExpedienteRow :=
  ⟨2, "LP-002-2025", "Supervision de obra", 300000, "ADJUDICADO"⟩

/-! Shared lemmas about the sorting pipeline. -/

lemma sortedOfertas_perm (l : List OfertaProj) :
    List.Perm (sortedOfertas l) l :=
  List.perm_insertionSort rdesc l

lemma sortedOfertas_sorted (l : List OfertaProj) :
    List.Sorted rdesc (sortedOfertas l) :=
  List.sorted_insertionSort rdesc l

lemma length_sortedOfertas (l : List OfertaProj) :
    (sortedOfertas l).length = l.length :=
  List.length_insertionSort rdesc l

lemma rankedRows_map_fst (l : List OfertaProj) :
    (rankedRows l).map Prod.fst = List.range' 1 l.length := by
  rw [rankedRows, List.map_fst_zip, length_sortedOfertas]
  simp [length_sortedOfertas]

lemma rankedRows_map_snd (l : List OfertaProj) :
    (rankedRows l).map Prod.snd = sortedOfertas l := by
  rw [rankedRows, List.map_snd_zip]
  simp

lemma rankedRows_cons {l : List OfertaProj} {a : OfertaProj}
    {rest : List OfertaProj} (hs : sortedOfertas l = a :: rest) :
    rankedRows l = (1, a) :: (List.range' 2 rest.length).zip rest := by
  rw [rankedRows, hs]
  simp [List.range'_succ]

/-- Claim C3: on an empty bid collection the render pass shows the explicit
no-bids warning, stops, and never reaches the winner summary. -/
theorem empty_ofertas_shows_empty_state :
    renderExpediente [] =
      RenderOutcome.noOfertas "No se han cargado ofertas para este expediente."
    ∧ ∀ (t : List DisplayRow) (w : DisplayRow),
        renderExpediente [] ≠ RenderOutcome.rendered t w := by
  refine ⟨rfl, fun t w h => ?_⟩
  simp [renderExpediente] at h

/-- Claim C4: the error panel with the raw payload is shown and the cache is
left untouched on any non-200 trigger response; only the HTTP 200 response
clears the cache and reruns the page so data is re-fetched before
re-rendering. -/
theorem cache_clear_gated_on_success (b : JsonVal) :
    (handle_trigger (PostResult.ok 403 b) =
      { successShown := false, cacheCleared := false, rerun := false
        errorShown := some b })
    ∧ (handle_trigger (PostResult.ok 200 b) =
      { successShown := true, cacheCleared := true, rerun := true
        errorShown := none })
    ∧ (∀ (s : ℕ) (b2 : JsonVal), s ≠ 200 →
        (handle_trigger (PostResult.ok s b2)).cacheCleared = false
        ∧ (handle_trigger (PostResult.ok s b2)).errorShown = some b2)
    ∧ (∀ (m : String), (handle_trigger (PostResult.exn m)).cacheCleared = false) := by
  refine ⟨rfl, rfl, fun s b2 hs => ?_, fun m => rfl⟩
  simp [handle_trigger, call_edge_function, hs]

/-- Witness for claim C4 at a concrete failing response. -/
theorem cache_clear_gated_on_success_witness :
    (500 : ℕ) ≠ 200
    ∧ (handle_trigger (PostResult.ok 500 JsonVal.null)).cacheCleared = false
    ∧ (handle_trigger (PostResult.ok 500 JsonVal.null)).errorShown =
        some JsonVal.null :=
  ⟨by decide,
    (cache_clear_gated_on_success JsonVal.null).2.2.1 500 JsonVal.null
      (by decide)⟩

/-- Claim C5: the trigger call succeeds exactly on HTTP 200, passes the JSON
body through in both cases, and turns any raised exception into a failure
result carrying a diagnostic payload instead of an uncaught fault. -/
theorem trigger_success_iff_http200 (s : ℕ) (b : JsonVal) (m : String) :
    ((call_edge_function (PostResult.ok s b)).1 = true ↔ s = 200)
    ∧ ((call_edge_function (PostResult.ok s b)).2 = b)
    ∧ (s ≠ 200 → call_edge_function (PostResult.ok s b) = (false, b))
    ∧ (call_edge_function (PostResult.exn m) =
        (false, JsonVal.obj [("error", JsonVal.str m)])) := by
  by_cases h : s = 200 <;>
    simp [call_edge_function, h]

/-- Witness for claim C5 at a concrete non-200 response. -/
theorem trigger_success_iff_http200_witness :
    (403 : ℕ) ≠ 200
    ∧ call_edge_function (PostResult.ok 403 JsonVal.null) =
        (false, JsonVal.null) :=
  ⟨by decide,
    (trigger_success_iff_http200 403 JsonVal.null "x").2.2.1 (by decide)⟩

/-- Claim C6: a failing read query degrades to an empty result set plus the
visible error message, for both the case list and the bid list. -/
theorem read_failure_degrades_to_empty (e : String) (eid : ℕ) :
    fetch_expedientes (Except.error e) =
      ([], some ("Error al cargar expedientes: " ++ e))
    ∧ fetch_ofertas eid (Except.error e) =
      ([], some ("Error al cargar ofertas: " ++ e)) :=
  ⟨rfl, rfl⟩

/-- Witness for claim C6 at a concrete failing query. -/
theorem read_failure_degrades_to_empty_witness :
    fetch_expedientes (Except.error "timeout") =
      ([], some ("Error al cargar expedientes: " ++ "timeout"))
    ∧ fetch_ofertas 7 (Except.error "timeout") =
      ([], some ("Error al cargar ofertas: " ++ "timeout")) :=
  read_failure_degrades_to_empty "timeout" 7

/-- Claim C1: for a non-empty bid collection, the rank-1 row of the ranked
table has a total score at least that of every bid, and exactly its bidder
name and (rounded) total score form the standalone winner summary of the
render pass. -/
theorem winner_has_max_total (ofertas : List Oferta) (h : ofertas ≠ []) :
    ∃ (a : OfertaProj) (rest : List OfertaProj),
      sortedOfertas (ofertas.map proyectarColumnas) = a :: rest
      ∧ (∀ o ∈ ofertas, (proyectarColumnas o).puntaje_total ≤ a.puntaje_total)
      ∧ renderExpediente ofertas =
          RenderOutcome.rendered (display_df ofertas) (mkDisplayRow (1, a))
      ∧ (mkDisplayRow (1, a)).ranking = 1
      ∧ (mkDisplayRow (1, a)).razon_social = a.razon_social
      ∧ (mkDisplayRow (1, a)).puntaje_total = round2 a.puntaje_total := by
  obtain ⟨x, xs, rfl⟩ : ∃ x xs, ofertas = x :: xs := by
    cases ofertas with
    | nil => exact absurd rfl h
    | cons x xs => exact ⟨x, xs, rfl⟩
  set l := (x :: xs).map proyectarColumnas with hl
  obtain ⟨a, rest, hs⟩ : ∃ a rest, sortedOfertas l = a :: rest := by
    cases hse : sortedOfertas l with
    | nil =>
        exfalso
        have hlen := length_sortedOfertas l
        rw [hse] at hlen
        simp [hl] at hlen
    | cons a rest => exact ⟨a, rest, rfl⟩
  have hdf : display_df (x :: xs)
      = mkDisplayRow (1, a)
        :: (((List.range' 2 rest.length).zip rest).map mkDisplayRow) := by
    rw [display_df, ← hl, rankedRows_cons hs, List.map_cons]
  refine ⟨a, rest, hs, ?_, ?_, rfl, rfl, rfl⟩
  · intro o ho
    have hmem : proyectarColumnas o ∈ l := List.mem_map_of_mem _ ho
    have hmem2 : proyectarColumnas o ∈ sortedOfertas l :=
      (sortedOfertas_perm l).mem_iff.mpr hmem
    rw [hs] at hmem2
    rcases List.mem_cons.mp hmem2 with heq | hrest
    · rw [heq]
    · have hsorted := sortedOfertas_sorted l
      rw [hs] at hsorted
      exact List.rel_of_sorted_cons hsorted _ hrest
  · simp only [renderExpediente, List.isEmpty_cons, Bool.false_eq_true,
      if_false]
    rw [hdf]
    rfl

/-- Witness for claim C1 at a concrete two-bid collection. -/
theorem winner_has_max_total_witness :
    ([oferta1, oferta2] : List Oferta) ≠ []
    ∧ ∃ (a : OfertaProj) (rest : List OfertaProj),
        sortedOfertas ([oferta1, oferta2].map proyectarColumnas) = a :: rest
        ∧ (∀ o ∈ ([oferta1, oferta2] : List Oferta),
            (proyectarColumnas o).puntaje_total ≤ a.puntaje_total)
        ∧ renderExpediente [oferta1, oferta2] =
            RenderOutcome.rendered (display_df [oferta1, oferta2])
              (mkDisplayRow (1, a))
        ∧ (mkDisplayRow (1, a)).ranking = 1
        ∧ (mkDisplayRow (1, a)).razon_social = a.razon_social
        ∧ (mkDisplayRow (1, a)).puntaje_total = round2 a.puntaje_total :=
  ⟨List.cons_ne_nil _ _,
    winner_has_max_total [oferta1, oferta2] (List.cons_ne_nil _ _)⟩

/-- Claim C2: the rank column of the displayed table is exactly the dense
sequence 1, 2, ..., n by sorted position, even in the presence of ties. -/
theorem ranking_values_dense (ofertas : List Oferta) (_h : ofertas ≠ []) :
    (display_df ofertas).map (fun r => r.ranking)
      = List.range' 1 ofertas.length := by
  rw [display_df, List.map_map]
  have hcomp : ((fun r => r.ranking) ∘ mkDisplayRow)
      = (Prod.fst : ℕ × OfertaProj → ℕ) := rfl
  rw [hcomp, rankedRows_map_fst, List.length_map]

/-- Witness for claim C2 at a three-bid collection with a tied top score. -/
theorem ranking_values_dense_witness :
    ([oferta1, oferta2, oferta3] : List Oferta) ≠ []
    ∧ (display_df [oferta1, oferta2, oferta3]).map (fun r => r.ranking)
        = List.range' 1 3 :=
  ⟨List.cons_ne_nil _ _,
    ranking_values_dense [oferta1, oferta2, oferta3] (List.cons_ne_nil _ _)⟩

/-- Claim C7 counterexample: the bid query returns matching rows in store
order — for a store holding the lower-scored bid first, the returned rows
are not in descending total-score order. -/
theorem ofertas_query_unordered_cex :
    ofertasQuery [ofertaBaja, ofertaAlta] 1 = [ofertaBaja, ofertaAlta]
    ∧ ¬ List.Sorted (fun a b => b.puntaje_total ≤ a.puntaje_total)
        (ofertasQuery [ofertaBaja, ofertaAlta] 1) := by
  refine ⟨by decide, fun hs => ?_⟩
  rw [(by decide :
    ofertasQuery [ofertaBaja, ofertaAlta] 1 = [ofertaBaja, ofertaAlta])] at hs
  have h20 : ofertaAlta.puntaje_total ≤ ofertaBaja.puntaje_total :=
    List.rel_of_sorted_cons hs _ (by simp)
  norm_num [ofertaAlta, ofertaBaja] at h20

/-- Claim C7 as amended: the bid query filters by the selected case
identifier and preserves store order (it is a sublist of the store, with no
ordering clause); `fetch_ofertas` returns exactly these rows. -/
theorem ofertas_query_filters_by_case (db : List Oferta) (eid : ℕ) :
    (∀ o ∈ ofertasQuery db eid, o.expediente_id = eid)
    ∧ List.Sublist (ofertasQuery db eid) db
    ∧ fetch_ofertas eid (Except.ok db) = (ofertasQuery db eid, none) := by
  refine ⟨fun o ho => ?_, List.filter_sublist db, rfl⟩
  have hm := List.mem_filter.mp ho
  simpa using hm.2

/-- Witness for the amended claim C7 at a concrete store. -/
theorem ofertas_query_filters_by_case_witness :
    ofertaBaja ∈ ofertasQuery [ofertaBaja, ofertaAlta] 1
    ∧ ofertaBaja.expediente_id = 1 :=
  ⟨by decide,
    (ofertas_query_filters_by_case [ofertaBaja, ofertaAlta] 1).1 ofertaBaja
      (by decide)⟩

/-- Claim C8 counterexample: the case query returns rows of two different
phases, so there is no single pending-evaluation phase that all returned
cases share — the query does not filter by phase. -/
theorem expedientes_query_unfiltered_cex :
    projExpediente expedienteConv
        ∈ expedientesQuery [expedienteConv, expedienteAdj]
    ∧ projExpediente expedienteAdj
        ∈ expedientesQuery [expedienteConv, expedienteAdj]
    ∧ ¬ ∃ p : String,
        ∀ r ∈ expedientesQuery [expedienteConv, expedienteAdj],
          r.estado_fase = p := by
  refine ⟨by decide, by decide, ?_⟩
  rintro ⟨p, hp⟩
  have h1 := hp (projExpediente expedienteConv) (by decide)
  have h2 := hp (projExpediente expedienteAdj) (by decide)
  rw [show (projExpediente expedienteConv).estado_fase = "CONVOCATORIA"
    from rfl] at h1
  rw [show (projExpediente expedienteAdj).estado_fase = "ADJUDICADO"
    from rfl] at h2
  exact absurd (h2.trans h1.symm) (by decide)

/-- Claim C8 as amended: the case query projects every stored case to the
selected columns with no phase filter, so each case appears in the result
regardless of its phase; `fetch_expedientes` returns exactly these rows. -/
theorem expedientes_query_returns_all_phases (db : List ExpedienteRow) :
    ((expedientesQuery db).length = db.length)
    ∧ (∀ r ∈ db, projExpediente r ∈ expedientesQuery db)
    ∧ fetch_expedientes (Except.ok db) = (expedientesQuery db, none) := by
  refine ⟨by simp [expedientesQuery], fun r hr => ?_, rfl⟩
  show projExpediente r ∈ db.map projExpediente
  exact List.mem_map_of_mem _ hr

/-- Witness for the amended claim C8: an awarded case still appears. -/
theorem expedientes_query_returns_all_phases_witness :
    expedienteAdj ∈ [expedienteConv, expedienteAdj]
    ∧ projExpediente expedienteAdj
        ∈ expedientesQuery [expedienteConv, expedienteAdj] :=
  ⟨by decide,
    (expedientes_query_returns_all_phases [expedienteConv, expedienteAdj]).2.1
      expedienteAdj (by decide)⟩

/-! `Rat.floor` agrees with the floor of the `FloorRing` structure on `ℚ`,
so concrete roundings can be evaluated through `Int.floor_eq_iff`. -/

lemma ratFloor_eq_intFloor (q : ℚ) : q.floor = ⌊q⌋ := by
  rw [Rat.floor_def', Rat.floor_def]

lemma round2_87_6666 : round2 (876666/10000) = 8767/100 := by
  have h100 : (100 : ℚ) * (876666/10000) = 876666/100 := by norm_num
  have hf1 : ⌊(876666 : ℚ)/100⌋ = 8766 := by
    rw [Int.floor_eq_iff]
    constructor <;> norm_num
  have hf2 : ⌊(876666 : ℚ)/100 + 1/2⌋ = 8767 := by
    rw [Int.floor_eq_iff]
    constructor <;> norm_num
  rw [round2, h100, rhe, ratFloor_eq_intFloor, hf1,
    if_neg (by norm_num : (876666 : ℚ)/100 - ((8766 : ℤ) : ℚ) ≠ 1/2),
    ratFloor_eq_intFloor, hf2]
  norm_num

lemma round2_87_664 : round2 (87664/1000) = 8766/100 := by
  have h100 : (100 : ℚ) * (87664/1000) = 87664/10 := by norm_num
  have hf1 : ⌊(87664 : ℚ)/10⌋ = 8766 := by
    rw [Int.floor_eq_iff]
    constructor <;> norm_num
  have hf2 : ⌊(87664 : ℚ)/10 + 1/2⌋ = 8766 := by
    rw [Int.floor_eq_iff]
    constructor <;> norm_num
  rw [round2, h100, rhe, ratFloor_eq_intFloor, hf1,
    if_neg (by norm_num : (87664 : ℚ)/10 - ((8766 : ℤ) : ℚ) ≠ 1/2),
    ratFloor_eq_intFloor, hf2]
  norm_num

/-- Claim C9: every displayed score field is the two-decimal rounding of the
corresponding bid score, and on the spec's examples 87.6666 displays as
87.67 while 87.664 displays as 87.66. -/
theorem scores_rounded_two_decimals :
    (∀ (ofertas : List Oferta), ∀ r ∈ display_df ofertas,
        ∃ o ∈ ofertas, r.puntaje_precio = round2 o.puntaje_precio
          ∧ r.puntaje_tecnico = round2 o.puntaje_tecnico
          ∧ r.puntaje_total = round2 o.puntaje_total)
    ∧ ((display_df [oferta_r1]).map (fun r => r.puntaje_total) = [8767/100])
    ∧ ((display_df [oferta_r2]).map (fun r => r.puntaje_total) = [8766/100])
    ∧ round2 (876666/10000) = 8767/100
    ∧ round2 (87664/1000) = 8766/100 := by
  refine ⟨?_,
    by rw [show (display_df [oferta_r1]).map (fun r => r.puntaje_total)
          = [round2 (876666/10000)] from rfl, round2_87_6666],
    by rw [show (display_df [oferta_r2]).map (fun r => r.puntaje_total)
          = [round2 (87664/1000)] from rfl, round2_87_664],
    round2_87_6666, round2_87_664⟩
  intro ofertas r hr
  rw [display_df] at hr
  obtain ⟨p, hp, rfl⟩ := List.mem_map.mp hr
  have hsnd : p.2 ∈ (rankedRows (ofertas.map proyectarColumnas)).map Prod.snd :=
    List.mem_map_of_mem _ hp
  rw [rankedRows_map_snd] at hsnd
  have hmem : p.2 ∈ ofertas.map proyectarColumnas :=
    (sortedOfertas_perm _).mem_iff.mp hsnd
  obtain ⟨o, ho, hoe⟩ := List.mem_map.mp hmem
  obtain ⟨rk, pr⟩ := p
  cases hoe
  exact ⟨o, ho, rfl, rfl, rfl⟩

/-- Witness for claim C9 at a one-bid collection. -/
theorem scores_rounded_two_decimals_witness :
    mkDisplayRow (1, proyectarColumnas oferta_r1) ∈ display_df [oferta_r1]
    ∧ ∃ o ∈ ([oferta_r1] : List Oferta),
        (mkDisplayRow (1, proyectarColumnas oferta_r1)).puntaje_precio
            = round2 o.puntaje_precio
        ∧ (mkDisplayRow (1, proyectarColumnas oferta_r1)).puntaje_tecnico
            = round2 o.puntaje_tecnico
        ∧ (mkDisplayRow (1, proyectarColumnas oferta_r1)).puntaje_total
            = round2 o.puntaje_total :=
  ⟨show mkDisplayRow (1, proyectarColumnas oferta_r1)
        ∈ [mkDisplayRow (1, proyectarColumnas oferta_r1)] from
      List.mem_singleton_self _,
    scores_rounded_two_decimals.1 [oferta_r1] _
      (show mkDisplayRow (1, proyectarColumnas oferta_r1)
          ∈ [mkDisplayRow (1, proyectarColumnas oferta_r1)] from
        List.mem_singleton_self _)⟩

/-- Claim C10: the ranked table is a permutation of the projected input bids
— no row is dropped, duplicated, or altered by the ranking computation. -/
theorem ranking_preserves_rows (ofertas : List Oferta) (_h : ofertas ≠ []) :
    List.Perm ((rankedRows (ofertas.map proyectarColumnas)).map Prod.snd)
      (ofertas.map proyectarColumnas) := by
  rw [rankedRows_map_snd]
  exact sortedOfertas_perm _

/-- Witness for claim C10 at a concrete two-bid collection. -/
theorem ranking_preserves_rows_witness :
    ([oferta2, oferta1] : List Oferta) ≠ []
    ∧ List.Perm
        ((rankedRows ([oferta2, oferta1].map proyectarColumnas)).map Prod.snd)
        ([oferta2, oferta1].map proyectarColumnas) :=
  ⟨List.cons_ne_nil _ _,
    ranking_preserves_rows [oferta2, oferta1] (List.cons_ne_nil _ _)⟩

end SigSel
